import Mathlib

/-!
# Verification of the ralphinabox Local sandbox provider

Shallow embedding of `src/app/providers/sandbox/local.py` (`LocalProvider`)
together with the data model of `src/app/models/sandbox.py`.

Modelling conventions:
* POSIX paths are lists of path components (`List String`); an entry of the
  sandbox registry maps a sandbox id to the component list of its absolute
  root directory.  `pathlib.Path.resolve()` is embedded as lexical
  normalisation of `.`/`..` segments (symbolic links are outside the model).
* Python exceptions become the `PyError` sum type carried by `Except`.
* The filesystem is a pair of association lists: file path to byte content,
  plus the set of existing directories.  Subprocess behaviour (including
  timeouts and elapsed wall-clock time) is an oracle from the argument
  vector to an outcome, since the child process is external to the program.
* Python truthiness of optional dict/str arguments (`if env:`, `if cwd:`,
  `if not auth:`, `if branch:`) is embedded explicitly.
-/

namespace RalphInABox

/-- Errors raised by `LocalProvider` (Python exceptions as data):
`ValueError` for an unknown sandbox id, `ValueError` for a path escaping the
root, `FileNotFoundError` from filesystem access, `RuntimeError` from a
failed git command. -/
inductive PyError where
  | unknownSandbox (sandbox_id : String)
  | pathEscape (path : String)
  | notFound (path : String)
  | gitCommandError (message : String)
  deriving DecidableEq, Repr

/-- Embeds `app.models.sandbox.ExecResult`: outcome of one process invocation. -/
structure ExecResult where
  exit_code : Int
  stdout : String
  stderr : String
  duration_ms : Nat
  deriving DecidableEq, Repr

/-- Embeds `app.models.sandbox.FileEntry`: one child of a listed directory.
`mod_time` is a timestamp read from `stat` (modelled as a natural number
supplied by a stat oracle; the float is irrelevant to the claims). -/
structure FileEntry where
  name : String
  is_dir : Bool
  size : Nat
  mod_time : Nat
  deriving DecidableEq, Repr

/-! ## Path model (`pathlib.Path`, POSIX flavour) -/

/-- Split a character list at `/` separators (the semantics of splitting a
string on `"/"`). -/
def splitSlash (acc : List Char) : List Char → List String
  | [] => [String.mk acc.reverse]
  | c :: cs =>
    if c = '/' then String.mk acc.reverse :: splitSlash [] cs
    else splitSlash (c :: acc) cs

/-- Computes `PurePosixPath(s).parts` without the anchor: split on `/`, dropping empty
components and `.` (both are dropped at parse time by `pathlib`). -/
def pathParts (s : String) : List String :=
  (splitSlash [] s.data).filter (fun c => c != "" && c != ".")

/-- Computes `Path(s).is_absolute()` for POSIX paths: the string starts with `/`. -/
def pyIsAbsolute (s : String) : Bool :=
  match s.data with
  | [] => false
  | c :: _ => c = '/'

/-- Lexical part of `Path.resolve()` on an absolute component list: `..` pops
the last component (and is a no-op at the filesystem root), other components
are appended. -/
def normalizeParts (ps : List String) : List String :=
  ps.foldl (fun acc c => if c = ".." then acc.dropLast else acc ++ [c]) []

/-- Render an absolute component list back to a path string (`str(Path)`). -/
def showParts (ps : List String) : String :=
  "/" ++ String.intercalate "/" ps

/-! ## Registry and provider state -/

/-- In-memory provider state: the `_sandboxes` registry (id to root components)
plus the filesystem the provider manipulates (files with byte contents, and
the set of directories that exist). -/
structure ProviderState where
  sandboxes : List (String × List String)
  files : List (List String × List UInt8)
  dirs : List (List String)
  deriving DecidableEq, Repr

/-- Embeds `LocalProvider._get_root`: registry lookup, `ValueError` (unknown sandbox)
when the id is absent. -/
def getRoot (reg : List (String × List String)) (sandbox_id : String) :
    Except PyError (List String) :=
  match List.lookup sandbox_id reg with
  | some root => .ok root
  | none => .error (.unknownSandbox sandbox_id)

/-- The canonical target computed by `_resolve_path` before the containment
check: the input parsed, joined to the resolved root when relative, then
resolved. -/
def canonicalTarget (root : List String) (path : String) : List String :=
  normalizeParts
    (if pyIsAbsolute path then pathParts path else normalizeParts root ++ pathParts path)

/-- Embeds `LocalProvider._resolve_path`: resolve the root, join a relative input to
it, resolve the target, then require `target.relative_to(root)` to succeed
(`relative_to` is a component-wise ancestor test); on failure raise the
path-escape `ValueError`. -/
def resolvePath (reg : List (String × List String)) (sandbox_id : String)
    (path : String) : Except PyError (List String) := do
  let root := normalizeParts (← getRoot reg sandbox_id)
  let target := canonicalTarget root path
  if root.isPrefixOf target then .ok target else .error (.pathEscape path)

/-- Applies `_resolve_path` to a provider state's registry. -/
def resolvePathSt (st : ProviderState) (sandbox_id : String) (path : String) :
    Except PyError (List String) :=
  resolvePath st.sandboxes sandbox_id path

/-- Containment as the spec states it: the target is the root itself or a
strict descendant of the root. -/
def containedIn (root target : List String) : Prop :=
  target = root ∨ ∃ s, s ≠ [] ∧ target = root ++ s

/-! ## Process runner (`LocalProvider._run`) -/

/-- Environment mappings (`dict[str, str]`), looked up first-match. -/
abbrev Env := List (String × String)

/-- Behaviour of one `subprocess.run` invocation, supplied as an oracle: the
child either completes with an exit code and captured output, or exceeds the
timeout (`subprocess.TimeoutExpired`, whose captured streams may be absent).
`elapsed_ms` is the monotonic wall-clock time the call consumed. -/
inductive SubprocessBehavior where
  | completed (returncode : Int) (stdout stderr : String) (elapsed_ms : Nat)
  | timedOut (stdout stderr : Option String) (elapsed_ms : Nat)
  deriving DecidableEq, Repr

/-- Computes `base.copy()` followed by `base.update(upd)`: on lookup, entries of `upd`
shadow entries of `base` key-for-key. -/
def dictUpdate (base upd : Env) : Env := upd ++ base

/-- Computes `merged_env = os.environ.copy(); if env: merged_env.update(env)` — the
environment handed to the child process (`env` falsy means absent or empty). -/
def mergedEnv (processEnv : Env) (env : Option Env) : Env :=
  match env with
  | none => processEnv
  | some e => if e.isEmpty then processEnv else dictUpdate processEnv e

/-- Embeds `LocalProvider._run`: look up the root, resolve `cwd` when truthy, merge
the environment, then run the command.  A `TimeoutExpired` is converted into
an `ExecResult` with exit code 124 and `"\nCommand timed out."` appended to
the captured stderr; it is returned, not raised.  The merged environment
passed to `subprocess.run` is returned alongside the result so that theorems
can speak about what the child receives. -/
def runProc (processEnv : Env) (oracle : List String → SubprocessBehavior)
    (st : ProviderState) (sandbox_id : String) (command : List String)
    (cwd : Option String) (env : Option Env) (timeout_s : Option Nat) :
    Except PyError (Env × ExecResult) := do
  let root ← getRoot st.sandboxes sandbox_id
  let _run_cwd ← (match cwd with
    | some c => if c = "" then pure root else resolvePathSt st sandbox_id c
    | none => pure root)
  let merged_env := mergedEnv processEnv env
  let _ := timeout_s
  match oracle command with
  | .completed returncode out err elapsed => .ok (merged_env, ⟨returncode, out, err, elapsed⟩)
  | .timedOut out err elapsed =>
    .ok (merged_env, ⟨124, out.getD "", (err.getD "") ++ "\nCommand timed out.", elapsed⟩)

/-! ## Lifecycle (`create_sandbox`, `delete_sandbox`, `start`, `stop`) -/

/-- Computes the joined `KEY=VALUE` lines for the sandbox env / labels files. -/
def envFileContent (e : Env) : String :=
  String.intercalate "\n" (e.map (fun kv => kv.1 ++ "=" ++ kv.2))

/-- Overwrite the content stored for path `p`. -/
def fsSetFile (files : List (List String × List UInt8)) (p : List String)
    (d : List UInt8) : List (List String × List UInt8) :=
  (p, d) :: files.filter (fun kv => !(kv.1 == p))

/-- Embeds `Path.mkdir(parents=True, exist_ok=True)`: create the directory and every
missing ancestor. -/
def mkdirAll (dirs : List (List String)) (p : List String) : List (List String) :=
  dirs ++ (((List.range (p.length + 1)).map (fun i => p.take i)).filter
    (fun d => !(dirs.contains d)))

/-- Embeds `LocalProvider.create_sandbox`: the id is `name ++ "-" ++ uuid4().hex`
(the fresh hex suffix is an input of the model), `tempfile.mkdtemp`
materialises the root directory (the fresh directory is an input of the
model), the registry gains the entry, and a truthy `env` (resp. `labels`) is
written to `.ralph/sandbox-env.txt` (resp. `.ralph/sandbox-labels.txt`)
under the root, UTF-8 encoded. -/
def create_sandbox (st : ProviderState) (name uuid_hex : String)
    (rootParts : List String) (env labels : Option Env) : String × ProviderState :=
  let sandbox_id := name ++ "-" ++ uuid_hex
  let st1 : ProviderState :=
    { st with sandboxes := (sandbox_id, rootParts) :: st.sandboxes,
              dirs := mkdirAll st.dirs rootParts }
  let st2 :=
    match env with
    | some e =>
      if e.isEmpty then st1 else
        let env_path := rootParts ++ [".ralph", "sandbox-env.txt"]
        { st1 with dirs := mkdirAll st1.dirs env_path.dropLast,
                   files := fsSetFile st1.files env_path (envFileContent e).toUTF8.toList }
    | none => st1
  let st3 :=
    match labels with
    | some l =>
      if l.isEmpty then st2 else
        let labels_path := rootParts ++ [".ralph", "sandbox-labels.txt"]
        { st2 with dirs := mkdirAll st2.dirs labels_path.dropLast,
                   files := fsSetFile st2.files labels_path (envFileContent l).toUTF8.toList }
    | none => st2
  (sandbox_id, st3)

/-- Embeds `shutil.rmtree(root, ignore_errors=True)` when it succeeds: everything at
or below `root` disappears. -/
def removeTree (st : ProviderState) (root : List String) : ProviderState :=
  { st with files := st.files.filter (fun kv => !(root.isPrefixOf kv.1)),
            dirs := st.dirs.filter (fun d => !(root.isPrefixOf d)) }

/-- Embeds `LocalProvider.delete_sandbox`: look up the root (raising for an unknown
id), best-effort-remove the tree (`ignore_errors=True`, so a failed removal
-- `rmtree_ok = false` -- is swallowed), then pop the registry entry
(`pop(sandbox_id, None)` never raises). -/
def delete_sandbox (rmtree_ok : Bool) (st : ProviderState) (sandbox_id : String) :
    Except PyError ProviderState := do
  let root ← getRoot st.sandboxes sandbox_id
  let st1 := if rmtree_ok then removeTree st root else st
  .ok { st1 with sandboxes := st1.sandboxes.filter (fun kv => !(kv.1 == sandbox_id)) }

/-- Embeds `LocalProvider.start_sandbox`: validates the identifier, nothing else. -/
def start_sandbox (st : ProviderState) (sandbox_id : String) : Except PyError Unit := do
  let _ ← getRoot st.sandboxes sandbox_id
  .ok ()

/-- Embeds `LocalProvider.stop_sandbox`: validates the identifier, nothing else. -/
def stop_sandbox (st : ProviderState) (sandbox_id : String) : Except PyError Unit := do
  let _ ← getRoot st.sandboxes sandbox_id
  .ok ()

/-! ## File and directory operations -/

/-- Embeds `LocalProvider.read_file`: resolve, then `Path.read_bytes()`
(`FileNotFoundError` when no file is stored at the resolved path). -/
def read_file (st : ProviderState) (sandbox_id path : String) :
    Except PyError (List UInt8) := do
  let p ← resolvePathSt st sandbox_id path
  match List.lookup p st.files with
  | some d => .ok d
  | none => .error (.notFound path)

/-- Embeds `LocalProvider.write_file`: resolve, create the parent chain
(`parent.mkdir(parents=True, exist_ok=True)`), then write the bytes --
truncating (`"wb"`) by default, appending (`"ab"`) when requested.  The
optional `chmod(mode)` only alters permission bits, which the model does not
track. -/
def write_file (st : ProviderState) (sandbox_id path : String) (data : List UInt8)
    (mode : Option Nat) (append : Bool) : Except PyError ProviderState := do
  let p ← resolvePathSt st sandbox_id path
  let st1 := { st with dirs := mkdirAll st.dirs p.dropLast }
  let _ := mode
  let newData := if append then (List.lookup p st1.files).getD [] ++ data else data
  .ok { st1 with files := fsSetFile st1.files p newData }

/-- Final component of a path. -/
def lastName (p : List String) : String := p.getLastD ""

/-- Embeds `os.scandir(dir_path)` on an existing directory: one entry per immediate
child (a directory or a file whose path is `p ++ [name]`).  `stat.st_mtime`
is read from the filesystem, supplied by the `mtime` oracle; a directory's
`st_size` is filesystem-defined and abstracted as 0 (no claim concerns it). -/
def scandirEntries (mtime : List String → Nat) (st : ProviderState)
    (p : List String) : List FileEntry :=
  (st.dirs.filter (fun d => d.length == p.length + 1 && p.isPrefixOf d)).map
    (fun d => ⟨lastName d, true, 0, mtime d⟩)
  ++ (st.files.filter (fun kv => kv.1.length == p.length + 1 && p.isPrefixOf kv.1)).map
    (fun kv => ⟨lastName kv.1, false, kv.2.length, mtime kv.1⟩)

/-- Embeds `LocalProvider.list_files`: resolve, then `os.scandir` the directory --
which raises `FileNotFoundError` when the directory does not exist. -/
def list_files (mtime : List String → Nat) (st : ProviderState)
    (sandbox_id path : String) : Except PyError (List FileEntry) := do
  let p ← resolvePathSt st sandbox_id path
  if st.dirs.contains p then .ok (scandirEntries mtime st p)
  else .error (.notFound path)

/-- Embeds `LocalProvider.mkdirs`: resolve, then `mkdir(parents=True, exist_ok=True)`. -/
def mkdirs (st : ProviderState) (sandbox_id path : String) :
    Except PyError ProviderState := do
  let p ← resolvePathSt st sandbox_id path
  .ok { st with dirs := mkdirAll st.dirs p }

/-! ## Git operations -/

/-- Embeds `dict.get(key)` on an auth mapping. -/
def pyLookup (d : Env) (k : String) : Option String := List.lookup k d

/-- Embeds `str.replace(old, new, 1)` over character lists: replace the first
occurrence of `old` (an empty `old` matches at the start). -/
def listReplaceFirst (old new : List Char) : List Char → List Char
  | [] => if old.isEmpty then new else []
  | c :: cs =>
    if old.isPrefixOf (c :: cs) then new ++ (c :: cs).drop old.length
    else c :: listReplaceFirst old new cs

/-- Python `str.replace(old, new, 1)`. -/
def pyReplaceFirst (s old new : String) : String :=
  String.mk (listReplaceFirst old.data new.data s.data)

/-- Python `str.startswith`. -/
def pyStartsWith (s p : String) : Bool := p.data.isPrefixOf s.data

/-- Embeds `LocalProvider._inject_auth`: with a falsy `auth` or a falsy token the URL
is unchanged; with a token and an `https://` URL the first occurrence of
`https://` is replaced by `https://TOKEN@`; any other URL is unchanged. -/
def inject_auth (url : String) (auth : Option Env) : String :=
  match auth with
  | none => url
  | some a =>
    if a.isEmpty then url
    else
      match pyLookup a "token" with
      | none => url
      | some token =>
        if token = "" then url
        else if pyStartsWith url "https://" then
          pyReplaceFirst url "https://" ("https://" ++ token ++ "@")
        else url

/-- Embeds `self._run(sandbox_id, command)` as the git layer calls it: no cwd, no
env overrides, no timeout; only the result is observed. -/
def runNoOpts (processEnv : Env) (oracle : List String → SubprocessBehavior)
    (st : ProviderState) (sandbox_id : String) (command : List String) :
    Except PyError ExecResult :=
  (runProc processEnv oracle st sandbox_id command none none none).map (fun pr => pr.2)

/-- Embeds `LocalProvider.git_clone`: resolve the destination, inject credentials,
build `git clone [--branch B] URL DEST`, raise on a non-zero exit.  The
clone's filesystem effects happen in the child process, outside the model. -/
def git_clone (processEnv : Env) (oracle : List String → SubprocessBehavior)
    (st : ProviderState) (sandbox_id url path : String) (branch : Option String)
    (auth : Option Env) : Except PyError Unit := do
  let target ← resolvePathSt st sandbox_id path
  let clone_url := inject_auth url auth
  let command := ["git", "clone"]
    ++ (match branch with
        | some b => if b = "" then [] else ["--branch", b]
        | none => [])
    ++ [clone_url, showParts target]
  let result ← runNoOpts processEnv oracle st sandbox_id command
  if result.exit_code ≠ 0 then
    .error (.gitCommandError ("git clone failed: " ++ result.stderr))
  else .ok ()

/-- Embeds `LocalProvider.git_status`: `git -C PATH status --porcelain`, returning
raw stdout, raising on a non-zero exit. -/
def git_status (processEnv : Env) (oracle : List String → SubprocessBehavior)
    (st : ProviderState) (sandbox_id path : String) : Except PyError String := do
  let p ← resolvePathSt st sandbox_id path
  let result ← runNoOpts processEnv oracle st sandbox_id
    ["git", "-C", showParts p, "status", "--porcelain"]
  if result.exit_code ≠ 0 then
    .error (.gitCommandError ("git status failed: " ++ result.stderr))
  else .ok result.stdout

/-- Embeds `LocalProvider.git_diff`: `git -C PATH diff`, returning raw stdout. -/
def git_diff (processEnv : Env) (oracle : List String → SubprocessBehavior)
    (st : ProviderState) (sandbox_id path : String) : Except PyError String := do
  let p ← resolvePathSt st sandbox_id path
  let result ← runNoOpts processEnv oracle st sandbox_id
    ["git", "-C", showParts p, "diff"]
  if result.exit_code ≠ 0 then
    .error (.gitCommandError ("git diff failed: " ++ result.stderr))
  else .ok result.stdout

/-- Embeds `LocalProvider.git_checkout_new_branch`: `git -C PATH checkout -b NAME`. -/
def git_checkout_new_branch (processEnv : Env)
    (oracle : List String → SubprocessBehavior) (st : ProviderState)
    (sandbox_id path branch_name : String) : Except PyError Unit := do
  let p ← resolvePathSt st sandbox_id path
  let result ← runNoOpts processEnv oracle st sandbox_id
    ["git", "-C", showParts p, "checkout", "-b", branch_name]
  if result.exit_code ≠ 0 then
    .error (.gitCommandError ("git checkout failed: " ++ result.stderr))
  else .ok ()

/-- Python whitespace for `str.strip()`. -/
def isPySpace (c : Char) : Bool :=
  c = ' ' || c = '\t' || c = '\n' || c = '\r' || c = '\x0b' || c = '\x0c'

/-- Python `str.strip()`: drop leading and trailing whitespace. -/
def pyStrip (s : String) : String :=
  String.mk (((s.data.dropWhile isPySpace).reverse.dropWhile isPySpace).reverse)

/-- The commit invocation issued by `git_commit`: identity is set explicitly
on the command line (`-c user.name=… -c user.email=…`). -/
def gitCommitCmd (repo_path message : String) : List String :=
  ["git", "-C", repo_path, "-c", "user.name=Ralph", "-c", "user.email=ralph@local",
   "commit", "-m", message]

/-- The hash lookup issued by `git_commit`. -/
def gitRevParseCmd (repo_path : String) : List String :=
  ["git", "-C", repo_path, "rev-parse", "HEAD"]

/-- Embeds `LocalProvider.git_commit`: resolve the repo path, run the commit command
(raising on a non-zero exit), then `git rev-parse HEAD` (likewise), and
return its stdout stripped.  The second component is the ordered list of
command vectors handed to `_run`. -/
def git_commit (processEnv : Env) (oracle : List String → SubprocessBehavior)
    (st : ProviderState) (sandbox_id path message : String) :
    Except PyError String × List (List String) :=
  match resolvePathSt st sandbox_id path with
  | .error e => (.error e, [])
  | .ok repoParts =>
    match runNoOpts processEnv oracle st sandbox_id
        (gitCommitCmd (showParts repoParts) message) with
    | .error e => (.error e, [gitCommitCmd (showParts repoParts) message])
    | .ok result =>
      if result.exit_code ≠ 0 then
        (.error (.gitCommandError ("git commit failed: " ++ result.stderr)),
         [gitCommitCmd (showParts repoParts) message])
      else
        match runNoOpts processEnv oracle st sandbox_id
            (gitRevParseCmd (showParts repoParts)) with
        | .error e =>
          (.error e,
           [gitCommitCmd (showParts repoParts) message,
            gitRevParseCmd (showParts repoParts)])
        | .ok sha_result =>
          if sha_result.exit_code ≠ 0 then
            (.error (.gitCommandError ("git rev-parse failed: " ++ sha_result.stderr)),
             [gitCommitCmd (showParts repoParts) message,
              gitRevParseCmd (showParts repoParts)])
          else
            (.ok (pyStrip sha_result.stdout),
             [gitCommitCmd (showParts repoParts) message,
              gitRevParseCmd (showParts repoParts)])

/-- Embeds `LocalProvider.git_push`: inject credentials into the remote, resolve the
repo path, `git -C PATH push TARGET BRANCH`, raise on a non-zero exit. -/
def git_push (processEnv : Env) (oracle : List String → SubprocessBehavior)
    (st : ProviderState) (sandbox_id path remote branch : String)
    (auth : Option Env) : Except PyError Unit := do
  let push_target := inject_auth remote auth
  let p ← resolvePathSt st sandbox_id path
  let result ← runNoOpts processEnv oracle st sandbox_id
    ["git", "-C", showParts p, "push", push_target, branch]
  if result.exit_code ≠ 0 then
    .error (.gitCommandError ("git push failed: " ++ result.stderr))
  else .ok ()

/-- Embeds `LocalProvider.get_preview_link`: unconditionally `None` — the id is not
looked up. -/
def get_preview_link (st : ProviderState) (sandbox_id : String) (port : Nat) :
    Except PyError (Option String) :=
  let _ := st
  let _ := sandbox_id
  let _ := port
  .ok none

/-! ## Concrete fixtures used by witnesses and counterexamples -/

/-- A provider with no sandboxes and an empty filesystem. -/
def emptyState : ProviderState := ⟨[], [], []⟩

/-- A subprocess oracle with the same outcome for every command. -/
def constOracle (r : SubprocessBehavior) : List String → SubprocessBehavior :=
  fun _ => r

/-- A stat oracle reporting modification time 0 everywhere. -/
def zeroMtime : List String → Nat := fun _ => 0

/-- One registered sandbox `"sb"` rooted at `/tmp/r`, no files. -/
def stOne : ProviderState := ⟨[("sb", ["tmp", "r"])], [], [["tmp", "r"]]⟩

/-- The state after creating a sandbox named `sb` (uuid hex `1`, so id
`sb-1`) with creation-time environment `K=V`, starting from nothing. -/
def stEnvCreated : ProviderState :=
  (create_sandbox emptyState "sb" "1" ["tmp", "r"] (some [("K", "V")]) none).2

/-- Sandbox `"sb"` at `/tmp/r` holding one file `f.txt` (two bytes) and one
subdirectory `sub`. -/
def stList : ProviderState :=
  ⟨[("sb", ["tmp", "r"])],
   [(["tmp", "r", "f.txt"], [104, 105])],
   [["tmp", "r"], ["tmp", "r", "sub"]]⟩

/-- The string without its first `n` characters (Python `s[n:]`). -/
def pyDropChars (s : String) (n : Nat) : String := String.mk (s.data.drop n)

/-- A git oracle for `/tmp/r/repo`: `rev-parse HEAD` prints a hash followed
by a newline, every other command succeeds silently. -/
def gitOracleW : List String → SubprocessBehavior :=
  fun cmd =>
    if cmd = gitRevParseCmd "/tmp/r/repo" then .completed 0 "abc123\n" "" 1
    else .completed 0 "" "" 1

lemma isPrefixOf_iff_exists_append (r t : List String) :
    r.isPrefixOf t = true ↔ ∃ s, t = r ++ s := by
  rw [List.isPrefixOf_iff_prefix]
  constructor
  · rintro ⟨s, hs⟩
    exact ⟨s, hs.symm⟩
  · rintro ⟨s, hs⟩
    exact ⟨s, hs.symm⟩

lemma isPrefixOf_iff_containedIn (r t : List String) :
    r.isPrefixOf t = true ↔ containedIn r t := by
  rw [isPrefixOf_iff_exists_append]
  constructor
  · rintro ⟨s, hs⟩
    cases s with
    | nil => exact Or.inl (by simpa using hs)
    | cons a as => exact Or.inr ⟨a :: as, by simp, hs⟩
  · rintro (h | ⟨s, _, hs⟩)
    · exact ⟨[], by simpa using h⟩
    · exact ⟨s, hs⟩

lemma canonicalTarget_idem_root (reg : List (String × List String))
    (sid : String) (root : List String) (p : String)
    (h : List.lookup sid reg = some root) :
    resolvePath reg sid p =
      if (normalizeParts root).isPrefixOf (canonicalTarget (normalizeParts root) p)
      then .ok (canonicalTarget (normalizeParts root) p)
      else .error (.pathEscape p) := by
  simp only [resolvePath, getRoot, h, bind, Except.bind, canonicalTarget]

end RalphInABox

open RalphInABox

/-- C1: for every sandbox id present in the registry and every caller-supplied
path (relative or absolute, possibly containing `..`), `_resolve_path` raises
a path-escape error exactly when the canonical resolved target is neither the
(canonical) root nor a descendant of it, and returns the contained canonical
target otherwise.  Containment is the component-wise ancestor relation
`containedIn`, not a string-prefix test. -/
theorem resolve_path_escape_iff (st : ProviderState) (sid : String)
    (root : List String) (p : String)
    (h : List.lookup sid st.sandboxes = some root) :
    (resolvePathSt st sid p = .error (.pathEscape p) ↔
      ¬ containedIn (normalizeParts root) (canonicalTarget (normalizeParts root) p)) ∧
    (containedIn (normalizeParts root) (canonicalTarget (normalizeParts root) p) →
      resolvePathSt st sid p = .ok (canonicalTarget (normalizeParts root) p)) := by
  have hres := canonicalTarget_idem_root st.sandboxes sid root p h
  by_cases hb : (normalizeParts root).isPrefixOf (canonicalTarget (normalizeParts root) p) = true
  · have hc := (isPrefixOf_iff_containedIn _ _).mp hb
    refine ⟨iff_of_false ?_ (not_not_intro hc), fun _ => ?_⟩
    · rw [resolvePathSt, hres, if_pos hb]
      simp
    · rw [resolvePathSt, hres, if_pos hb]
  · have hnc : ¬ containedIn (normalizeParts root) (canonicalTarget (normalizeParts root) p) := by
      intro hc
      exact hb ((isPrefixOf_iff_containedIn _ _).mpr hc)
    refine ⟨iff_of_true ?_ hnc, fun hc => absurd hc hnc⟩
    rw [resolvePathSt, hres, if_neg hb]

/-- Witness for C1: a registry with root `/tmp/ralph`; the absolute input
`/tmp/ralph2/x` (a sibling whose name has the root as a string prefix, and an
absolute path, hence not implicitly trusted) is rejected with a path-escape
error. -/
theorem resolve_path_escape_iff_witness :
    resolvePathSt ⟨[("sb", ["tmp", "ralph"])], [], [["tmp", "ralph"]]⟩ "sb" "/tmp/ralph2/x"
      = .error (.pathEscape "/tmp/ralph2/x") := by
  have h := resolve_path_escape_iff
    ⟨[("sb", ["tmp", "ralph"])], [], [["tmp", "ralph"]]⟩ "sb" ["tmp", "ralph"]
    "/tmp/ralph2/x" (by decide)
  refine h.1.mpr (fun hc => ?_)
  have hb := (isPrefixOf_iff_containedIn _ _).mpr hc
  exact absurd hb (by decide)

/-! ## Process-runner theorems (environment composition, timeout handling) -/

lemma lookup_append_env (k : String) (l₁ l₂ : Env) :
    List.lookup k (l₁ ++ l₂) = (List.lookup k l₁).orElse (fun _ => List.lookup k l₂) := by
  induction l₁ with
  | nil => simp [List.lookup]
  | cons a as ih =>
    by_cases hk : k == a.1
    · simp [List.lookup, hk, Option.orElse]
    · simp only [List.cons_append, List.lookup, hk]
      exact ih

lemma lookup_mergedEnv (k : String) (processEnv callEnv : Env) :
    List.lookup k (mergedEnv processEnv (some callEnv)) =
      (List.lookup k callEnv).orElse (fun _ => List.lookup k processEnv) := by
  by_cases he : callEnv.isEmpty
  · have : callEnv = [] := by
      cases callEnv
      · rfl
      · simp [List.isEmpty] at he
    subst this
    simp [mergedEnv, List.lookup, Option.orElse]
  · simp only [mergedEnv, he, if_neg, Bool.false_eq_true, if_false, dictUpdate]
    exact lookup_append_env k callEnv processEnv

lemma runProc_ok (processEnv : Env) (oracle : List String → SubprocessBehavior)
    (st : ProviderState) (sid : String) (root : List String) (cmd : List String)
    (env : Option Env) (t : Option Nat)
    (h : List.lookup sid st.sandboxes = some root) :
    runProc processEnv oracle st sid cmd none env t =
      .ok (mergedEnv processEnv env,
        match oracle cmd with
        | .completed rc out err ms => ⟨rc, out, err, ms⟩
        | .timedOut out err ms =>
          ⟨124, out.getD "", (err.getD "") ++ "\nCommand timed out.", ms⟩) := by
  have hroot : getRoot st.sandboxes sid = .ok root := by simp [getRoot, h]
  cases hoc : oracle cmd <;>
    simp [runProc, hroot, hoc, bind, Except.bind, pure, Except.pure]

/-- C2 (amended): the environment handed to the child of an exec call is the
provider process's environment updated key-for-key by the call-specific
overrides, later entries winning; the sandbox's creation-time environment is
not part of the composition (it is only recorded to a file at creation). -/
theorem exec_env_composition (processEnv callEnv : Env)
    (oracle : List String → SubprocessBehavior) (st : ProviderState)
    (sid : String) (root : List String) (cmd : List String) (t : Option Nat)
    (k : String) (h : List.lookup sid st.sandboxes = some root) :
    ∃ e r, runProc processEnv oracle st sid cmd none (some callEnv) t = .ok (e, r) ∧
      List.lookup k e = (List.lookup k callEnv).orElse (fun _ => List.lookup k processEnv) := by
  refine ⟨mergedEnv processEnv (some callEnv), _,
    runProc_ok processEnv oracle st sid root cmd (some callEnv) t h, ?_⟩
  exact lookup_mergedEnv k processEnv callEnv

/-- Witness for C2 (amended): with process environment `A=1` and call
override `B=2`, the child sees both, the override winning nowhere needed. -/
theorem exec_env_composition_witness :
    ∃ e r, runProc [("A", "1")] (constOracle (.completed 0 "" "" 5)) stOne "sb"
        ["env"] none (some [("B", "2")]) none = .ok (e, r) ∧
      List.lookup "B" e =
        (List.lookup "B" [("B", "2")]).orElse (fun _ => List.lookup "B" [("A", "1")]) :=
  exec_env_composition [("A", "1")] [("B", "2")]
    (constOracle (.completed 0 "" "" 5)) stOne "sb" ["tmp", "r"] ["env"] none "B"
    (by rfl)

/-- Counterexample to C2 as stated: a sandbox created with creation-time
environment `K=V`; an exec call with no overrides hands the child an
environment in which `K` is absent (the claim requires `K=V` to be present). -/
theorem exec_env_counterexample :
    runProc [] (constOracle (.completed 0 "" "" 5)) stEnvCreated "sb-1" ["env"]
        none none none = .ok ([], ⟨0, "", "", 5⟩) ∧
    List.lookup "K" [("K", "V")] = some "V" ∧
    List.lookup "K" ([] : Env) = none := by
  refine ⟨?_, rfl, rfl⟩
  rfl

/-- C3: an exec call whose command exceeds its timeout returns (not raises)
an `ExecResult` with the sentinel exit code 124, the captured output and a
measured duration. -/
theorem exec_timeout_reported (processEnv : Env)
    (oracle : List String → SubprocessBehavior) (st : ProviderState)
    (sid : String) (root : List String) (cmd : List String) (env : Option Env)
    (t : Nat) (out err : Option String) (ms : Nat)
    (h : List.lookup sid st.sandboxes = some root)
    (hb : oracle cmd = .timedOut out err ms) :
    ∃ e, runProc processEnv oracle st sid cmd none env (some t) =
      .ok (e, ⟨124, out.getD "", (err.getD "") ++ "\nCommand timed out.", ms⟩) := by
  refine ⟨mergedEnv processEnv env, ?_⟩
  rw [runProc_ok processEnv oracle st sid root cmd env (some t) h, hb]

/-- Witness for C3: a concrete timed-out command returns exit code 124 with
its partial stdout. -/
theorem exec_timeout_reported_witness :
    ∃ e, runProc [] (constOracle (.timedOut (some "partial") none 7)) stOne "sb"
        ["sleep", "60"] none none (some 1) =
      .ok (e, ⟨124, "partial", "\nCommand timed out.", 7⟩) :=
  exec_timeout_reported [] (constOracle (.timedOut (some "partial") none 7))
    stOne "sb" ["tmp", "r"] ["sleep", "60"] none 1 (some "partial") none 7
    (by rfl) (by rfl)

/-- C10: the stderr of a timed-out exec is the child's captured stderr
(empty when none was captured) with `"\nCommand timed out."` appended, and
the exit code is the timeout sentinel. -/
theorem exec_timeout_stderr_marker (processEnv : Env)
    (oracle : List String → SubprocessBehavior) (st : ProviderState)
    (sid : String) (root : List String) (cmd : List String) (env : Option Env)
    (t : Nat) (out err : Option String) (ms : Nat)
    (h : List.lookup sid st.sandboxes = some root)
    (hb : oracle cmd = .timedOut out err ms) :
    ∃ e r, runProc processEnv oracle st sid cmd none env (some t) = .ok (e, r) ∧
      r.stderr = (err.getD "") ++ "\nCommand timed out." ∧ r.exit_code = 124 := by
  refine ⟨mergedEnv processEnv env,
    ⟨124, out.getD "", (err.getD "") ++ "\nCommand timed out.", ms⟩, ?_, rfl, rfl⟩
  rw [runProc_ok processEnv oracle st sid root cmd env (some t) h, hb]

/-- Witness for C10: with no stderr captured, the timed-out result's stderr
is exactly the marker text. -/
theorem exec_timeout_stderr_marker_witness :
    ∃ e r, runProc [] (constOracle (.timedOut none none 3)) stOne "sb"
        ["sleep", "60"] none none (some 1) = .ok (e, r) ∧
      r.stderr = "" ++ "\nCommand timed out." ∧ r.exit_code = 124 :=
  exec_timeout_stderr_marker [] (constOracle (.timedOut none none 3)) stOne "sb"
    ["tmp", "r"] ["sleep", "60"] none 1 none none 3 (by rfl) (by rfl)

/-! ## Credential injection (`_inject_auth`) -/

lemma listReplaceFirst_of_isPrefixOf (old new s : List Char)
    (h : old.isPrefixOf s = true) :
    listReplaceFirst old new s = new ++ s.drop old.length := by
  cases s with
  | nil =>
    cases old with
    | nil => simp [listReplaceFirst]
    | cons c cs => simp [List.isPrefixOf] at h
  | cons c cs =>
    rw [listReplaceFirst, if_pos h]

lemma lookup_some_not_isEmpty (a : Env) (k t : String)
    (h : pyLookup a k = some t) : a.isEmpty = false := by
  cases a with
  | nil => simp [pyLookup, List.lookup] at h
  | cons x xs => rfl

/-- C4 (amended): credential injection leaves the URL unchanged when there is
no auth structure, no (or an empty) token — in particular when only a
username/password pair is supplied — or when the URL is not `https`; when a
non-empty token is present and the URL starts with `https://`, that prefix is
replaced by `https://TOKEN@` with no detection of credentials already
embedded in the URL. -/
theorem inject_auth_characterization (url : String) (a : Env) (t : String) :
    (inject_auth url none = url) ∧
    (pyLookup a "token" = none → inject_auth url (some a) = url) ∧
    (pyLookup a "token" = some "" → inject_auth url (some a) = url) ∧
    (pyStartsWith url "https://" = false → inject_auth url (some a) = url) ∧
    (pyLookup a "token" = some t → t ≠ "" → pyStartsWith url "https://" = true →
      inject_auth url (some a) = "https://" ++ t ++ "@" ++ pyDropChars url 8) := by
  refine ⟨rfl, ?_, ?_, ?_, ?_⟩
  · intro h
    by_cases he : a.isEmpty <;> simp [inject_auth, he, h]
  · intro h
    have he := lookup_some_not_isEmpty a "token" "" h
    simp [inject_auth, he, h]
  · intro h
    by_cases he : a.isEmpty
    · simp [inject_auth, he]
    · simp only [inject_auth, he, Bool.false_eq_true, if_false]
      cases hl : pyLookup a "token" with
      | none => rfl
      | some tok =>
        by_cases ht : tok = ""
        · simp [ht]
        · simp [ht, h]
  · intro h ht hs
    have he := lookup_some_not_isEmpty a "token" t h
    have hrep : pyReplaceFirst url "https://" ("https://" ++ t ++ "@")
        = "https://" ++ t ++ "@" ++ pyDropChars url 8 := by
      apply String.ext
      show listReplaceFirst ("https://".data) (("https://" ++ t ++ "@").data) url.data
        = ("https://" ++ t ++ "@" ++ pyDropChars url 8).data
      rw [listReplaceFirst_of_isPrefixOf _ _ _ hs]
      show ("https://" ++ t ++ "@").data ++ url.data.drop 8
        = (("https://" ++ t ++ "@") ++ pyDropChars url 8).data
      rfl
    simp [inject_auth, he, h, ht, hs, hrep]

/-- Witness for C4 (amended): the spec's own examples — an https URL with a
token gains `TOKEN@`, an SSH-form remote is unchanged. -/
theorem inject_auth_characterization_witness :
    inject_auth "https://github.com/org/repo.git" (some [("token", "abc")])
      = "https://abc@github.com/org/repo.git" ∧
    inject_auth "git@github.com:org/repo.git" (some [("token", "abc")])
      = "git@github.com:org/repo.git" := by
  constructor
  · rw [(inject_auth_characterization "https://github.com/org/repo.git"
      [("token", "abc")] "abc").2.2.2.2 (by rfl) (by decide) (by rfl)]
    decide
  · exact (inject_auth_characterization "git@github.com:org/repo.git"
      [("token", "abc")] "abc").2.2.2.1 (by rfl)

/-- Counterexample to C4 as stated: a username/password pair on an https URL
injects nothing (the claim requires `username:password@`), and a URL that
already carries embedded credentials is mutated when a token is supplied
(the claim requires it never be). -/
theorem inject_auth_counterexample :
    inject_auth "https://github.com/org/repo.git"
        (some [("username", "u"), ("password", "p")])
      = "https://github.com/org/repo.git" ∧
    inject_auth "https://github.com/org/repo.git"
        (some [("username", "u"), ("password", "p")])
      ≠ "https://u:p@github.com/org/repo.git" ∧
    inject_auth "https://user:pw@github.com/org/repo.git" (some [("token", "abc")])
      = "https://abc@user:pw@github.com/org/repo.git" := by
  refine ⟨rfl, by decide, by decide⟩

/-! ## `git_commit` -/

lemma runNoOpts_ok (processEnv : Env) (oracle : List String → SubprocessBehavior)
    (st : ProviderState) (sid : String) (root : List String)
    (h : List.lookup sid st.sandboxes = some root) (cmd : List String) :
    runNoOpts processEnv oracle st sid cmd =
      .ok (match oracle cmd with
        | .completed rc out err ms => ⟨rc, out, err, ms⟩
        | .timedOut out err ms =>
          ⟨124, out.getD "", (err.getD "") ++ "\nCommand timed out.", ms⟩) := by
  rw [runNoOpts, runProc_ok processEnv oracle st sid root cmd none none h]
  rfl

/-- C5 (amended): `git_commit` resolves the repository path and then issues
exactly two commands — a `git commit -m MESSAGE` carrying an explicitly set
author/committer identity via `-c user.name=… -c user.email=…` (no reliance
on ambient git configuration), followed by `git rev-parse HEAD` — and
returns the rev-parse stdout stripped of surrounding whitespace.  No staging
command (`git add -A`) is issued; the commit covers what is already staged. -/
theorem git_commit_behaviour (processEnv : Env)
    (oracle : List String → SubprocessBehavior) (st : ProviderState)
    (sid path message : String) (root p : List String)
    (out1 err1 : String) (ms1 : Nat) (sha err2 : String) (ms2 : Nat)
    (h : List.lookup sid st.sandboxes = some root)
    (hres : resolvePathSt st sid path = .ok p)
    (h1 : oracle (gitCommitCmd (showParts p) message) = .completed 0 out1 err1 ms1)
    (h2 : oracle (gitRevParseCmd (showParts p)) = .completed 0 sha err2 ms2) :
    git_commit processEnv oracle st sid path message =
      (.ok (pyStrip sha),
       [gitCommitCmd (showParts p) message, gitRevParseCmd (showParts p)]) := by
  simp only [git_commit, hres, runNoOpts_ok processEnv oracle st sid root h, h1, h2]
  simp

/-- Witness for C5 (amended): a concrete commit whose rev-parse stdout ends
in a newline; the returned hash is the stripped hex string, and the issued
commands are exactly the commit (with explicit identity) and the rev-parse. -/
theorem git_commit_behaviour_witness :
    git_commit [] gitOracleW stOne "sb" "repo" "add notes" =
      (.ok "abc123",
       [gitCommitCmd "/tmp/r/repo" "add notes", gitRevParseCmd "/tmp/r/repo"]) := by
  have h := git_commit_behaviour [] gitOracleW stOne "sb" "repo" "add notes"
    ["tmp", "r"] ["tmp", "r", "repo"] "" "" 1 "abc123\n" "" 1
    (by rfl) (by rfl) (by decide) (by decide)
  rw [h]
  rfl

/-- Counterexample to C5 as stated: in a successful `git_commit` run the
first command handed to the process runner is the commit itself, and no
issued command mentions `add` — the claimed `git add -A` staging step does
not happen. -/
theorem git_commit_no_staging_counterexample :
    (git_commit [] (constOracle (.completed 0 "" "" 1)) stOne "sb" "repo" "msg").2
      = [gitCommitCmd "/tmp/r/repo" "msg", gitRevParseCmd "/tmp/r/repo"] ∧
    ((git_commit [] (constOracle (.completed 0 "" "" 1)) stOne "sb" "repo" "msg").2.all
      (fun c => !(c.contains "add"))) = true ∧
    (git_commit [] (constOracle (.completed 0 "" "" 1)) stOne "sb" "repo" "msg").1
      = .ok "" := by
  refine ⟨by decide, by decide, by rfl⟩

/-! ## Unknown sandbox identifiers -/

lemma getRoot_unknown (reg : List (String × List String)) (sid : String)
    (h : List.lookup sid reg = none) :
    getRoot reg sid = .error (.unknownSandbox sid) := by
  simp [getRoot, h]

lemma resolvePathSt_unknown (st : ProviderState) (sid p : String)
    (h : List.lookup sid st.sandboxes = none) :
    resolvePathSt st sid p = .error (.unknownSandbox sid) := by
  simp [resolvePathSt, resolvePath, getRoot_unknown st.sandboxes sid h,
    bind, Except.bind]

lemma runProc_unknown (processEnv : Env) (oracle : List String → SubprocessBehavior)
    (st : ProviderState) (sid : String) (cmd : List String) (cwd : Option String)
    (env : Option Env) (t : Option Nat)
    (h : List.lookup sid st.sandboxes = none) :
    runProc processEnv oracle st sid cmd cwd env t = .error (.unknownSandbox sid) := by
  simp [runProc, getRoot_unknown st.sandboxes sid h, bind, Except.bind]

lemma runNoOpts_unknown (processEnv : Env) (oracle : List String → SubprocessBehavior)
    (st : ProviderState) (sid : String) (cmd : List String)
    (h : List.lookup sid st.sandboxes = none) :
    runNoOpts processEnv oracle st sid cmd = .error (.unknownSandbox sid) := by
  rw [runNoOpts, runProc_unknown processEnv oracle st sid cmd none none none h]
  rfl

/-- C6 (amended): every operation that takes a sandbox identifier absent from
the registry fails with the unknown-sandbox error — start, stop, delete,
exec, file I/O, directory listing, mkdirs, and all git operations — except
`get_preview_link`, which returns "no preview available" (`none`) without
consulting the registry at all. -/
theorem unknown_sandbox_uniform_error (st : ProviderState) (sid : String)
    (processEnv : Env) (oracle : List String → SubprocessBehavior)
    (mtime : List String → Nat) (b ap : Bool) (cmd : List String)
    (cwd : Option String) (env : Option Env) (t : Option Nat)
    (p url branch_name remote branch msg : String) (br : Option String)
    (auth auth2 : Option Env) (data : List UInt8) (mode : Option Nat)
    (port : Nat) (h : List.lookup sid st.sandboxes = none) :
    start_sandbox st sid = .error (.unknownSandbox sid) ∧
    stop_sandbox st sid = .error (.unknownSandbox sid) ∧
    delete_sandbox b st sid = .error (.unknownSandbox sid) ∧
    runProc processEnv oracle st sid cmd cwd env t = .error (.unknownSandbox sid) ∧
    read_file st sid p = .error (.unknownSandbox sid) ∧
    write_file st sid p data mode ap = .error (.unknownSandbox sid) ∧
    list_files mtime st sid p = .error (.unknownSandbox sid) ∧
    mkdirs st sid p = .error (.unknownSandbox sid) ∧
    git_clone processEnv oracle st sid url p br auth = .error (.unknownSandbox sid) ∧
    git_status processEnv oracle st sid p = .error (.unknownSandbox sid) ∧
    git_diff processEnv oracle st sid p = .error (.unknownSandbox sid) ∧
    git_checkout_new_branch processEnv oracle st sid p branch_name
      = .error (.unknownSandbox sid) ∧
    (git_commit processEnv oracle st sid p msg).1 = .error (.unknownSandbox sid) ∧
    git_push processEnv oracle st sid p remote branch auth2
      = .error (.unknownSandbox sid) ∧
    get_preview_link st sid port = .ok none := by
  have hg := getRoot_unknown st.sandboxes sid h
  have hr : ∀ q, resolvePathSt st sid q = .error (.unknownSandbox sid) :=
    fun q => resolvePathSt_unknown st sid q h
  refine ⟨?_, ?_, ?_, runProc_unknown processEnv oracle st sid cmd cwd env t h,
    ?_, ?_, ?_, ?_, ?_, ?_, ?_, ?_, ?_, ?_, rfl⟩
  · simp [start_sandbox, hg, bind, Except.bind]
  · simp [stop_sandbox, hg, bind, Except.bind]
  · simp [delete_sandbox, hg, bind, Except.bind]
  · simp [read_file, hr p, bind, Except.bind]
  · simp [write_file, hr p, bind, Except.bind]
  · simp [list_files, hr p, bind, Except.bind]
  · simp [mkdirs, hr p, bind, Except.bind]
  · simp [git_clone, hr p, bind, Except.bind]
  · simp [git_status, hr p, bind, Except.bind]
  · simp [git_diff, hr p, bind, Except.bind]
  · simp [git_checkout_new_branch, hr p, bind, Except.bind]
  · simp [git_commit, hr p]
  · simp [git_push, hr p, bind, Except.bind]

/-- Witness for C6 (amended): against an empty registry, representative
operations with the id `ghost` error with the unknown-sandbox kind while
`get_preview_link` succeeds with `none`. -/
theorem unknown_sandbox_uniform_error_witness :
    start_sandbox emptyState "ghost" = .error (.unknownSandbox "ghost") ∧
    read_file emptyState "ghost" "x.txt" = .error (.unknownSandbox "ghost") ∧
    (git_commit [] (constOracle (.completed 0 "" "" 1)) emptyState "ghost" "r" "m").1
      = .error (.unknownSandbox "ghost") ∧
    get_preview_link emptyState "ghost" 8080 = .ok none := by
  have h := unknown_sandbox_uniform_error emptyState "ghost" []
    (constOracle (.completed 0 "" "" 1)) zeroMtime false false [] none none none
    "x.txt" "u" "b" "origin" "main" "m" none none none [] none 8080 (by rfl)
  exact ⟨h.1, h.2.2.2.2.1, h.2.2.2.2.2.2.2.2.2.2.2.2.1,
    h.2.2.2.2.2.2.2.2.2.2.2.2.2.2⟩

/-- Counterexample to C6 as stated: `get_preview_link` on an identifier never
returned by `create_sandbox` does not fail — it returns `.ok none`. -/
theorem get_preview_link_counterexample :
    get_preview_link emptyState "ghost" 80 = .ok none ∧
    List.lookup "ghost" emptyState.sandboxes = none ∧
    (Except.ok none : Except PyError (Option String))
      ≠ .error (.unknownSandbox "ghost") := by
  refine ⟨rfl, rfl, fun hcontra => ?_⟩
  cases hcontra

/-! ## Deletion -/

lemma lookup_filter_self (sid : String) (l : List (String × List String)) :
    List.lookup sid (l.filter (fun kv => !(kv.1 == sid))) = none := by
  induction l with
  | nil => rfl
  | cons a as ih =>
    by_cases ha : a.1 = sid
    · simp only [List.filter, ha, beq_self_eq_true, Bool.not_true]
      exact ih
    · have h1 : (a.1 == sid) = false := by simp [ha]
      have h2 : (sid == a.1) = false := by simp [Ne.symm ha]
      simp only [List.filter, h1, Bool.not_false, List.lookup, h2]
      exact ih

/-- C7 (amended): a `delete_sandbox` call on a registered identifier succeeds
and always removes the registry entry — whether or not the directory-tree
removal succeeded (`rmtree` failures are swallowed) — and a second
`delete_sandbox` on the same identifier fails with the unknown-sandbox error
rather than being a no-op. -/
theorem delete_sandbox_always_unregisters (st : ProviderState) (sid : String)
    (root : List String) (b : Bool)
    (h : List.lookup sid st.sandboxes = some root) :
    ∃ st2, delete_sandbox b st sid = .ok st2 ∧
      List.lookup sid st2.sandboxes = none ∧
      delete_sandbox b st2 sid = .error (.unknownSandbox sid) := by
  have hg : getRoot st.sandboxes sid = .ok root := by simp [getRoot, h]
  refine ⟨{ (if b then removeTree st root else st) with
      sandboxes := (if b then removeTree st root else st).sandboxes.filter
        (fun kv => !(kv.1 == sid)) }, ?_, lookup_filter_self sid _, ?_⟩
  · simp [delete_sandbox, hg, bind, Except.bind]
  · simp [delete_sandbox, bind, Except.bind,
      getRoot_unknown _ sid (lookup_filter_self sid
        (if b then removeTree st root else st).sandboxes)]

/-- Witness for C7 (amended): deleting the registered sandbox `sb` succeeds
and unregisters it; the second delete errors. -/
theorem delete_sandbox_always_unregisters_witness :
    ∃ st2, delete_sandbox true stOne "sb" = .ok st2 ∧
      List.lookup "sb" st2.sandboxes = none ∧
      delete_sandbox true st2 "sb" = .error (.unknownSandbox "sb") :=
  delete_sandbox_always_unregisters stOne "sb" ["tmp", "r"] true (by rfl)

/-- Counterexample to C7 as stated: after a successful delete of `sb`, a
second `delete_sandbox "sb"` is an unknown-sandbox error, not a no-op. -/
theorem delete_twice_counterexample :
    delete_sandbox true stOne "sb" = .ok emptyState ∧
    delete_sandbox true emptyState "sb" = .error (.unknownSandbox "sb") :=
  ⟨rfl, rfl⟩

/-! ## Directory listing -/

lemma scandirEntries_direct_children (mtime : List String → Nat)
    (st : ProviderState) (p : List String) :
    ∀ e ∈ scandirEntries mtime st p,
      (e.is_dir = true ∧ (p ++ [e.name]) ∈ st.dirs) ∨
      (e.is_dir = false ∧ ∃ d, (p ++ [e.name], d) ∈ st.files ∧ e.size = d.length) := by
  intro e he
  rw [scandirEntries, List.mem_append] at he
  rcases he with he | he
  · left
    rw [List.mem_map] at he
    obtain ⟨d, hd, rfl⟩ := he
    rw [List.mem_filter] at hd
    obtain ⟨hmem, hcond⟩ := hd
    obtain ⟨hlen, hpre⟩ := (Bool.and_eq_true _ _).mp hcond
    obtain ⟨s, rfl⟩ := (isPrefixOf_iff_exists_append p d).mp hpre
    have hs1 : s.length = 1 := by
      have := beq_iff_eq.mp hlen
      simp only [List.length_append] at this
      omega
    obtain ⟨x, rfl⟩ : ∃ x, s = [x] := by
      cases s with
      | nil => simp at hs1
      | cons a t =>
        cases t with
        | nil => exact ⟨a, rfl⟩
        | cons b u => simp at hs1
    refine ⟨rfl, ?_⟩
    have hl : lastName (p ++ [x]) = x := by simp [lastName]
    show p ++ [lastName (p ++ [x])] ∈ st.dirs
    rw [hl]
    exact hmem
  · right
    rw [List.mem_map] at he
    obtain ⟨kv, hkv, rfl⟩ := he
    rw [List.mem_filter] at hkv
    obtain ⟨hmem, hcond⟩ := hkv
    obtain ⟨hlen, hpre⟩ := (Bool.and_eq_true _ _).mp hcond
    obtain ⟨fst, snd⟩ := kv
    obtain ⟨s, hs⟩ := (isPrefixOf_iff_exists_append p fst).mp hpre
    have hs1 : s.length = 1 := by
      have hl1 := beq_iff_eq.mp hlen
      rw [hs] at hl1
      simp only [List.length_append] at hl1
      omega
    obtain ⟨x, rfl⟩ : ∃ x, s = [x] := by
      cases s with
      | nil => simp at hs1
      | cons a t =>
        cases t with
        | nil => exact ⟨a, rfl⟩
        | cons b u => simp at hs1
    subst hs
    refine ⟨rfl, snd, ?_, rfl⟩
    have hl : lastName (p ++ [x]) = x := by simp [lastName]
    show (p ++ [lastName (p ++ [x])], snd) ∈ st.files
    rw [hl]
    exact hmem

/-- C8 (amended): `list_files` on an existing directory returns entries for
the immediate children only — every entry corresponds to a path exactly one
component below the listed directory — but on a directory that does not
exist it fails with a not-found error instead of returning an empty
sequence. -/
theorem list_files_children (mtime : List String → Nat) (st : ProviderState)
    (sid path : String) (p : List String)
    (hres : resolvePathSt st sid path = .ok p) :
    (st.dirs.contains p = true →
      list_files mtime st sid path = .ok (scandirEntries mtime st p) ∧
      ∀ e ∈ scandirEntries mtime st p,
        (e.is_dir = true ∧ (p ++ [e.name]) ∈ st.dirs) ∨
        (e.is_dir = false ∧ ∃ d, (p ++ [e.name], d) ∈ st.files ∧ e.size = d.length)) ∧
    (st.dirs.contains p = false →
      list_files mtime st sid path = .error (.notFound path)) := by
  constructor
  · intro hc
    refine ⟨?_, scandirEntries_direct_children mtime st p⟩
    have hm : p ∈ st.dirs := by simpa using hc
    simp [list_files, hres, hc, hm, bind, Except.bind]
  · intro hc
    have hm : p ∉ st.dirs := by simpa using hc
    simp [list_files, hres, hc, hm, bind, Except.bind]

/-- Witness for C8 (amended): listing the root of a sandbox holding one
subdirectory and one two-byte file yields exactly those two entries. -/
theorem list_files_children_witness :
    list_files zeroMtime stList "sb" "" =
      .ok [⟨"sub", true, 0, 0⟩, ⟨"f.txt", false, 2, 0⟩] := by
  have h := (list_files_children zeroMtime stList "sb" "" ["tmp", "r"]
    (by rfl)).1 (by rfl)
  rw [h.1]
  rfl

/-- Counterexample to C8 as stated: listing a directory that does not exist
is a not-found error, not an empty sequence. -/
theorem list_files_missing_counterexample :
    list_files zeroMtime stOne "sb" "missing" = .error (.notFound "missing") ∧
    list_files zeroMtime stOne "sb" "missing" ≠ .ok [] := by
  have h1 : list_files zeroMtime stOne "sb" "missing"
      = .error (.notFound "missing") := rfl
  refine ⟨h1, fun hcontra => ?_⟩
  rw [h1] at hcontra
  exact Except.noConfusion hcontra

/-! ## Write/read round-trip -/

lemma lookup_fsSetFile (files : List (List String × List UInt8))
    (p : List String) (d : List UInt8) :
    List.lookup p (fsSetFile files p d) = some d := by
  simp [fsSetFile, List.lookup]

lemma mem_mkdirAll_self (dirs : List (List String)) (p : List String) :
    p ∈ mkdirAll dirs p := by
  by_cases hc : dirs.contains p = true
  · exact List.mem_append_left _ (by simpa using hc)
  · have hm : p ∉ dirs := by simpa using hc
    refine List.mem_append_right _ ?_
    rw [List.mem_filter]
    refine ⟨?_, by simpa using hm⟩
    rw [List.mem_map]
    exact ⟨p.length, by simp [List.mem_range], by simp⟩

/-- C9: `write_file` in default overwrite mode stores exactly the given bytes
(any content, including empty and non-UTF8 byte strings), creating the
parent directory chain as needed, and a subsequent `read_file` of the same
path returns exactly those bytes. -/
theorem write_read_roundtrip (st : ProviderState) (sid path : String)
    (data : List UInt8) (p : List String)
    (hres : resolvePathSt st sid path = .ok p) :
    ∃ st2, write_file st sid path data none false = .ok st2 ∧
      read_file st2 sid path = .ok data ∧ p.dropLast ∈ st2.dirs := by
  refine ⟨⟨st.sandboxes, fsSetFile st.files p data, mkdirAll st.dirs p.dropLast⟩,
    ?_, ?_, mem_mkdirAll_self st.dirs p.dropLast⟩
  · simp [write_file, hres, bind, Except.bind]
  · simp only [read_file, bind, Except.bind]
    rw [show resolvePathSt
      ⟨st.sandboxes, fsSetFile st.files p data, mkdirAll st.dirs p.dropLast⟩
      sid path = .ok p from hres]
    simp [lookup_fsSetFile]

/-- Witness for C9: writing the non-UTF8 bytes `[255, 0]` to the nested path
`a/b.txt` and reading it back returns exactly those bytes. -/
theorem write_read_roundtrip_witness :
    ∃ st2, write_file stOne "sb" "a/b.txt" [255, 0] none false = .ok st2 ∧
      read_file st2 "sb" "a/b.txt" = .ok [255, 0] ∧
      (["tmp", "r", "a", "b.txt"] : List String).dropLast ∈ st2.dirs :=
  write_read_roundtrip stOne "sb" "a/b.txt" [255, 0] ["tmp", "r", "a", "b.txt"]
    (by rfl)
